import Mathlib

/-!
Verification of the Branch-to-Amplitude webhook translator
(`src/pages/api/branch-to-amplitude.ts`).

The source file holds two variants of the handler: a combined-call variant
(one batched delivery, a case-insensitive scan over identity keys) and a
two-call variant (identify call then event call, a fixed-precedence exact-key
identity check).  Both are embedded below; definitions for the second variant
carry a `2` suffix.

JavaScript values are modelled by the inductive `JsVal`; JS objects are
association lists of string keys.  Lookups take the LAST matching key,
matching JS semantics for duplicate keys (later spread or later JSON key
wins); object spread is modelled by list append under that lookup.  JS
numbers are modelled as integers (every numeric value the claims touch is an
integer well inside the exact float range).  Library boundaries -
`Number(string)`, `new Date(string).getTime()` and `Date.now()` - are
supplied by a `JsEnv` record, so every theorem holds for all behaviours of
those library calls.
-/

/-- A JavaScript value, as far as the handler can observe one. -/
inductive JsVal where
  /-- `undefined`; also the result of reading an absent key. -/
  | undefined : JsVal
  | null : JsVal
  | bool : Bool → JsVal
  /-- JS numbers, restricted to the integers (all values in play are exact). -/
  | num : Int → JsVal
  | str : String → JsVal
  | arr : List JsVal → JsVal
  | obj : List (String × JsVal) → JsVal

/-- A JS object: key/value pairs in insertion order. -/
abbrev JsObj := List (String × JsVal)

/-- Last-match association lookup: with duplicate keys the later entry wins,
as for repeated JSON keys and repeated spread in JS. -/
def lookupLast (k : String) : JsObj → Option JsVal
  | [] => none
  | (k', v) :: rest =>
    match lookupLast k rest with
    | some w => some w
    | none => if k' = k then some v else none

/-- Property read on an object: absent keys give `undefined`. -/
def getField (o : JsObj) (k : String) : JsVal :=
  (lookupLast k o).getD .undefined

/-- Property read on an arbitrary value: only objects expose the named keys
the handler reads; every other value yields `undefined` for them. -/
def jsGet (v : JsVal) (k : String) : JsVal :=
  match v with
  | .obj fs => getField fs k
  | _ => .undefined

/-- JS truthiness. -/
def jsTruthy : JsVal → Bool
  | .undefined => false
  | .null => false
  | .bool b => b
  | .num n => n != 0
  | .str s => s != ""
  | .arr _ => true
  | .obj _ => true

/-- The JS `||` operator. -/
def jsOr (a b : JsVal) : JsVal := if jsTruthy a then a else b

/-- The JS `?? null` coalescing used for the attribution fields: `undefined`
becomes an explicit `null`, everything else is kept. -/
def jsNC (v : JsVal) : JsVal :=
  match v with
  | .undefined => .null
  | w => w

/-- ASCII uppercasing of a string, written structurally over the character
list so that proofs can evaluate it (the JS `toUpperCase`, restricted to the
ASCII range the payloads use). -/
def strUpper (s : String) : String := String.mk (s.data.map Char.toUpper)

/-- ASCII lowercasing of a string (the JS `toLowerCase`, restricted to the
ASCII range the payloads use). -/
def strLower (s : String) : String := String.mk (s.data.map Char.toLower)

/-- Strip leading and trailing whitespace (the JS `trim`, over the
whitespace characters Lean recognizes). -/
def strTrim (s : String) : String :=
  String.mk (((s.data.dropWhile Char.isWhitespace).reverse.dropWhile Char.isWhitespace).reverse)

/-- `typeof v === "object"`: true for objects, arrays and `null`. -/
def jsTypeofObject : JsVal → Bool
  | .null => true
  | .arr _ => true
  | .obj _ => true
  | _ => false

/-- The own enumerable entries of a value, as `Object.keys`/spread see them:
an object gives its fields, an array gives index-keyed entries, everything
else gives none. -/
def fieldsOf : JsVal → JsObj
  | .obj fs => fs
  | .arr xs => List.zipWith (fun i x => (toString i, x)) (List.range xs.length) xs
  | _ => []

/-- Library boundary: the ambient clock and the two string parsers the source
delegates to (`Number(s)`, with `none` for NaN, and `new Date(s).getTime()`,
with `none` for an invalid date). -/
structure JsEnv where
  now : Int
  parseNumber : String → Option Int
  parseDate : String → Option Int

/-- `toMillis` (combined-call variant, lines 42-53; the two-call variant is
textually identical): coerce a timestamp candidate to millisecond epoch.
`ts > 1e12 ? ts : ts * 1000`; strings go through `Number` first, then
`new Date`; `d.getTime() || Date.now()` sends both an invalid date and the
zero epoch to the current time.  The source annotates the argument as
number/string/Date/null/undefined; a `Date` never reaches it from the
handler, and booleans follow `Number(ts)` (0 or 1).  Objects and arrays are
outside the annotated type and are mapped to the current-time fallback. -/
def toMillis (env : JsEnv) : JsVal → Int
  | .undefined => env.now
  | .null => env.now
  | .num n => if n > 1000000000000 then n else n * 1000
  | .bool b => let n : Int := if b then 1 else 0; if n > 1000000000000 then n else n * 1000
  | .str s =>
    match env.parseNumber s with
    | some n => if n > 1000000000000 then n else n * 1000
    | none =>
      match env.parseDate s with
      | some t => if t = 0 then env.now else t
      | none => env.now
  | .arr _ => env.now
  | .obj _ => env.now

/-- The recognized identity keys of the combined-call extractor. -/
def recognizedIdKeys : List String := ["idfa", "idfv", "adid", "advertising_id", "gaid"]

/-- The key loop of `pickDeviceId` (combined-call variant, lines 59-70): for
each entry, lowercase the key; when it is recognized and the value is a
string with a non-blank trim, return the trimmed value; otherwise keep
scanning.  When the scan is exhausted, return the placeholder
`"fallback-" + Date.now()`. -/
def scanIdFields (now : Int) : JsObj → String
  | [] => "fallback-" ++ toString now
  | (k, v) :: rest =>
    if recognizedIdKeys.contains (strLower k) then
      match v with
      | .str s => if strTrim s ≠ "" then strTrim s else scanIdFields now rest
      | _ => scanIdFields now rest
    else scanIdFields now rest

/-- `p.user_data || {}`. -/
def userVal (p : JsObj) : JsVal := jsOr (getField p "user_data") (.obj [])

/-- `pickDeviceId` (combined-call variant, lines 55-71). -/
def pickDeviceId (now : Int) (p : JsObj) : String :=
  scanIdFields now (fieldsOf (userVal p))

/-- `u.idfa && u.idfa.trim()` as a candidate: a non-blank string gives its
trim, a blank or falsy value falls through.  (The source types the field as
string-or-null; non-string values fall through in the model.) -/
def trimTruthy (v : JsVal) : Option String :=
  match v with
  | .str s => if s = "" then none else if strTrim s = "" then none else some (strTrim s)
  | _ => none

/-- `pickDeviceId` (two-call variant, lines 250-254): fixed precedence
idfa → idfv → adid over the exact lowercase keys, `undefined` otherwise. -/
def pickDeviceId2 (p : JsObj) : Option String :=
  match trimTruthy (jsGet (userVal p) "idfa") with
  | some d => some d
  | none =>
    match trimTruthy (jsGet (userVal p) "idfv") with
    | some d => some d
    | none => trimTruthy (jsGet (userVal p) "adid")

/-- The normalized event kind. -/
inductive EvKind where
  | install
  | reinstall
  /-- The OPEN kind (the name `open` is reserved in Lean). -/
  | opened
  | other
deriving DecidableEq

/-- `sub.isPrefixOf l || ...` scan underlying `String.includes`. -/
def charsInfix (sub : List Char) : List Char → Bool
  | [] => sub.isEmpty
  | c :: t => sub.isPrefixOf (c :: t) || charsInfix sub t

/-- JS `s.includes(sub)`. -/
def strIncludes (s sub : String) : Bool := charsInfix sub.toList s.toList

/-- `(p.name || p.event || "")` viewed as a string (the payload types the
event-name fields as strings; non-string values are outside the model). -/
def rawEventName (p : JsObj) : String :=
  match jsOr (getField p "name") (jsOr (getField p "event") (.str "")) with
  | .str s => s
  | _ => ""

/-- `normalizeEventType` (lines 75-81; identical in both variants):
uppercase, then substring tests in the order REINSTALL, INSTALL, OPEN. -/
def normalizeEventType (p : JsObj) : EvKind × String :=
  let raw := strUpper (rawEventName p)
  if strIncludes raw "REINSTALL" then (.reinstall, "Branch Reinstall")
  else if strIncludes raw "INSTALL" then (.install, "Branch Attributed Install")
  else if strIncludes raw "OPEN" then (.opened, "Branch Open")
  else (.other, if raw = "" then "Branch Event" else raw)

/-- The handler line (95-98 and 276-279): when `typeof payload?.data` is
`"object"`, spread payload and then payload.data into a fresh object, else
keep the payload.  Spread of the two is append, under last-match lookup. -/
def mergeData (p : JsObj) : JsObj :=
  if jsTypeofObject (getField p "data") then p ++ fieldsOf (getField p "data") else p

/-- `p.last_attributed_touch_data || {}`. -/
def latdVal (p : JsObj) : JsVal := jsOr (getField p "last_attributed_touch_data") (.obj [])

/-- `p.timestamp_millis || p.timestamp`. -/
def whenArg (p : JsObj) : JsVal := jsOr (getField p "timestamp_millis") (getField p "timestamp")

/-!
SHA-256, as performed by the `crypto` library call in `buildInsertId`
(`crypto.createHash("sha256").update(seed).digest("hex")`), embedded
executably over `Nat` with explicit reduction modulo `2 ^ 32` (FIPS 180-4).
-/

/-- Reduce to a 32-bit word. -/
def w32 (x : Nat) : Nat := x % 4294967296

/-- Right rotation of a 32-bit word. -/
def rotr32 (n x : Nat) : Nat := w32 ((x >>> n) ||| (x <<< (32 - n)))

/-- Bitwise complement of a 32-bit word. -/
def bnot32 (x : Nat) : Nat := 4294967295 - w32 x

/-- The SHA-256 Ch function. -/
def shaCh (x y z : Nat) : Nat := (x &&& y) ^^^ (bnot32 x &&& z)

/-- The SHA-256 Maj function. -/
def shaMaj (x y z : Nat) : Nat := (x &&& y) ^^^ (x &&& z) ^^^ (y &&& z)

/-- The SHA-256 Sigma0 compression function. -/
def bigSigma0 (x : Nat) : Nat := rotr32 2 x ^^^ rotr32 13 x ^^^ rotr32 22 x

/-- The SHA-256 Sigma1 compression function. -/
def bigSigma1 (x : Nat) : Nat := rotr32 6 x ^^^ rotr32 11 x ^^^ rotr32 25 x

/-- The SHA-256 sigma0 schedule function. -/
def smallSigma0 (x : Nat) : Nat := rotr32 7 x ^^^ rotr32 18 x ^^^ (x >>> 3)

/-- The SHA-256 sigma1 schedule function. -/
def smallSigma1 (x : Nat) : Nat := rotr32 17 x ^^^ rotr32 19 x ^^^ (x >>> 10)

/-- The SHA-256 initial hash value. -/
def sha256InitH : List Nat :=
  [1779033703, 3144134277, 1013904242, 2773480762, 1359893119,
   2600822924, 528734635, 1541459225]

/-- The SHA-256 round constants (FIPS 180-4 section 4.2.2), in decimal. -/
def sha256RoundK : List Nat :=
  [1116352408, 1899447441, 3049323471, 3921009573, 961987163,
   1508970993, 2453635748, 2870763221, 3624381080, 310598401,
   607225278, 1426881987, 1925078388, 2162078206, 2614888103,
   3248222580, 3835390401, 4022224774, 264347078, 604807628,
   770255983, 1249150122, 1555081692, 1996064986, 2554220882,
   2821834349, 2952996808, 3210313671, 3336571891, 3584528711,
   113926993, 338241895, 666307205, 773529912, 1294757372,
   1396182291, 1695183700, 1986661051, 2177026350, 2456956037,
   2730485921, 2820302411, 3259730800, 3345764771, 3516065817,
   3600352804, 4094571909, 275423344, 430227734, 506948616,
   659060556, 883997877, 958139571, 1322822218, 1537002063,
   1747873779, 1955562222, 2024104815, 2227730452, 2361852424,
   2428436474, 2756734187, 3204031479, 3329325298]

/-- Big-endian 8-byte encoding of the message bit length. -/
def beBytes8 (n : Nat) : List Nat :=
  [n / 72057594037927936 % 256, n / 281474976710656 % 256, n / 1099511627776 % 256,
   n / 4294967296 % 256, n / 16777216 % 256, n / 65536 % 256, n / 256 % 256, n % 256]

/-- SHA-256 padding: append 0x80, zeros to 56 mod 64, then the bit length. -/
def padBytes (msg : List Nat) : List Nat :=
  let len := msg.length
  let zeros := (120 - (len + 1) % 64) % 64
  msg ++ [128] ++ List.replicate zeros 0 ++ beBytes8 (8 * len)

/-- Split a byte list into 64-byte blocks, with a structural fuel argument
(the list length bounds the number of blocks) so the kernel can evaluate. -/
def chunks64Fuel : Nat → List Nat → List (List Nat)
  | 0, _ => []
  | _, [] => []
  | fuel + 1, l => l.take 64 :: chunks64Fuel fuel (l.drop 64)

/-- Split a byte list into 64-byte blocks. -/
def chunks64 (l : List Nat) : List (List Nat) := chunks64Fuel l.length l

/-- The 16 big-endian 32-bit words of a 64-byte block. -/
def wordsOfBlock (bytes : List Nat) : List Nat :=
  (List.range 16).map (fun i =>
    bytes.getD (4 * i) 0 * 16777216 + bytes.getD (4 * i + 1) 0 * 65536 +
    bytes.getD (4 * i + 2) 0 * 256 + bytes.getD (4 * i + 3) 0)

/-- Extend the 16 block words to the 64-entry message schedule. -/
def msgSchedule (ws16 : List Nat) : Array Nat :=
  (List.range 48).foldl
    (fun a i =>
      let t := i + 16
      a.push (w32 (smallSigma1 (a.getD (t - 2) 0) + a.getD (t - 7) 0 +
                   smallSigma0 (a.getD (t - 15) 0) + a.getD (t - 16) 0)))
    ws16.toArray

/-- One SHA-256 round. -/
def roundStep (w : Array Nat) (s : Nat × Nat × Nat × Nat × Nat × Nat × Nat × Nat) (t : Nat) :
    Nat × Nat × Nat × Nat × Nat × Nat × Nat × Nat :=
  match s with
  | (a, b, c, d, e, f, g, h) =>
    let t1 := w32 (h + bigSigma1 e + shaCh e f g + sha256RoundK.getD t 0 + w.getD t 0)
    let t2 := w32 (bigSigma0 a + shaMaj a b c)
    (w32 (t1 + t2), a, b, c, w32 (d + t1), e, f, g)

/-- Compress one 64-byte block into the running hash state. -/
def compressBlock (h : List Nat) (block : List Nat) : List Nat :=
  let w := msgSchedule (wordsOfBlock block)
  match (List.range 64).foldl (roundStep w)
      (h.getD 0 0, h.getD 1 0, h.getD 2 0, h.getD 3 0,
       h.getD 4 0, h.getD 5 0, h.getD 6 0, h.getD 7 0) with
  | (a, b, c, d, e, f, g, hh) =>
    [w32 (h.getD 0 0 + a), w32 (h.getD 1 0 + b), w32 (h.getD 2 0 + c), w32 (h.getD 3 0 + d),
     w32 (h.getD 4 0 + e), w32 (h.getD 5 0 + f), w32 (h.getD 6 0 + g), w32 (h.getD 7 0 + hh)]

/-- SHA-256 of a byte list, as the eight 32-bit digest words. -/
def sha256Words (msg : List Nat) : List Nat :=
  (chunks64 (padBytes msg)).foldl compressBlock sha256InitH

/-- The lowercase hexadecimal digit characters. -/
def hexDigitChars : List Char := "0123456789abcdef".data

/-- The hex digit of a nibble. -/
def hexDigit (n : Nat) : Char := hexDigitChars.getD n '0'

/-- The eight hex characters of a 32-bit word, high nibble first. -/
def hexOfWord (w : Nat) : List Char :=
  [hexDigit (w / 268435456 % 16), hexDigit (w / 16777216 % 16), hexDigit (w / 1048576 % 16),
   hexDigit (w / 65536 % 16), hexDigit (w / 4096 % 16), hexDigit (w / 256 % 16),
   hexDigit (w / 16 % 16), hexDigit (w % 16)]

/-- `digest("hex")`: the 64 hex characters of a SHA-256 digest. -/
def sha256HexChars (msg : List Nat) : List Char :=
  (sha256Words msg).flatMap hexOfWord

/-- UTF-8 encoding of one character (the encoding `update(seed)` applies). -/
def utf8EncodeCharNat (c : Char) : List Nat :=
  let n := c.toNat
  if n < 128 then [n]
  else if n < 2048 then [192 + n / 64, 128 + n % 64]
  else if n < 65536 then [224 + n / 4096, 128 + n / 64 % 64, 128 + n % 64]
  else [240 + n / 262144, 128 + n / 4096 % 64, 128 + n / 64 % 64, 128 + n % 64]

/-- UTF-8 bytes of a string. -/
def utf8Bytes (s : String) : List Nat := s.data.flatMap utf8EncodeCharNat

/-!
`buildInsertId` (lines 83-87; identical in both variants): a SHA-256 hex
digest of the JSON serialization of the six-field seed object, truncated by
`slice(0, 64)` (a no-op on the 64-character digest).
-/

/-- Four hex characters of a 16-bit value (for JSON `\-u` escapes). -/
def hex4 (n : Nat) : List Char :=
  [hexDigit (n / 4096 % 16), hexDigit (n / 256 % 16), hexDigit (n / 16 % 16), hexDigit (n % 16)]

/-- `JSON.stringify` escaping of one string character. -/
def jsonEscapeChar (c : Char) : List Char :=
  if c = '\"' then ['\\', '\"']
  else if c = '\\' then ['\\', '\\']
  else if c = '\x08' then ['\\', 'b']
  else if c = '\x0c' then ['\\', 'f']
  else if c = '\n' then ['\\', 'n']
  else if c = '\r' then ['\\', 'r']
  else if c = '\t' then ['\\', 't']
  else if c.toNat < 32 then '\\' :: 'u' :: hex4 c.toNat
  else [c]

/-- `JSON.stringify` of a string. -/
def jsonString (s : String) : String :=
  "\"" ++ String.mk (s.data.flatMap jsonEscapeChar) ++ "\""

/-- `JSON.stringify` of a seed-field value: `undefined` yields none (the
member is omitted), null/boolean/number/string serialize as JSON literals.
The seed fields are strings or null in the typed payload, so the composite
cases do not arise and are mapped to omission. -/
def jsonLit : JsVal → Option String
  | .undefined => none
  | .null => some "null"
  | .bool b => some (cond b "true" "false")
  | .num n => some (toString n)
  | .str s => some (jsonString s)
  | .arr _ => none
  | .obj _ => none

/-- One member of the seed object, or none when the value is `undefined`. -/
def seedMember (key : String) (v : JsVal) : Option String :=
  (jsonLit v).map (fun lit => jsonString key ++ ":" ++ lit)

/-- `p.last_attributed_touch_data?.link_id`: optional chaining gives
`undefined` on null/undefined, then a property read. -/
def jsOptChain (v : JsVal) (k : String) : JsVal :=
  match v with
  | .undefined => .undefined
  | .null => .undefined
  | w => jsGet w k

/-- The `JSON.stringify` seed of `buildInsertId`: the six fields id, name,
event, when, label, link in that fixed order, `undefined` members omitted. -/
def insertIdSeed (idv namev eventv : JsVal) (when : Int) (label : String) (linkv : JsVal) : String :=
  "\x7b" ++
    String.intercalate ","
      (List.filterMap id
        [seedMember "id" idv, seedMember "name" namev, seedMember "event" eventv,
         seedMember "when" (.num when), seedMember "label" (.str label),
         seedMember "link" linkv]) ++ "\x7d"

/-- `buildInsertId` (lines 83-87): SHA-256 hex digest of the seed,
`slice(0, 64)`. -/
def buildInsertId (p : JsObj) (when : Int) (label : String) : String :=
  String.mk ((sha256HexChars (utf8Bytes
    (insertIdSeed (getField p "id") (getField p "name") (getField p "event") when label
      (jsOptChain (getField p "last_attributed_touch_data") "link_id")))).take 64)

/-!
The event composer: the Identify record (lines 112-133, identical in the
two-call variant lines 293-314) and the attribution event record (combined
variant lines 146-168, two-call variant lines 331-356).
-/

/-- The first-touch user-property group (`setOnce` in the source, written
with a leading dollar sign there). -/
structure SetOnceProps where
  acq_channel_first : JsVal
  acq_campaign_first : JsVal
  acq_partner_first : JsVal
  acq_adset_first : JsVal
  acq_creative_first : JsVal
  /-- `acq_install_ts`: `undefined` (omitted) unless the kind is install. -/
  acq_install_ts : Option Int

/-- The last-touch user-property group (`set` in the source, written with a
leading dollar sign there). -/
structure SetProps where
  acq_channel_last : JsVal
  acq_campaign_last : JsVal
  acq_partner_last : JsVal
  acq_adset_last : JsVal
  acq_creative_last : JsVal
  acq_last_touch_ts : Int

/-- The identity record (`identification`): device id plus the two
user-property groups (`user_id` is the constant null and is not modelled as
a field). -/
structure Identification where
  device_id : String
  setOnce : SetOnceProps
  setAlways : SetProps

/-- Build the identity record (lines 112-133). -/
def identificationOf (env : JsEnv) (p : JsObj) : Identification :=
  let latd := latdVal p
  let when := toMillis env (whenArg p)
  let ty := (normalizeEventType p).1
  { device_id := pickDeviceId env.now p
    setOnce :=
      { acq_channel_first := jsNC (jsGet latd "channel")
        acq_campaign_first := jsNC (jsGet latd "campaign")
        acq_partner_first := jsNC (jsGet latd "ad_partner")
        acq_adset_first := jsNC (jsGet latd "ad_set")
        acq_creative_first := jsNC (jsGet latd "creative")
        acq_install_ts := if ty = .install then some when else none }
    setAlways :=
      { acq_channel_last := jsNC (jsGet latd "channel")
        acq_campaign_last := jsNC (jsGet latd "campaign")
        acq_partner_last := jsNC (jsGet latd "ad_partner")
        acq_adset_last := jsNC (jsGet latd "ad_set")
        acq_creative_last := jsNC (jsGet latd "creative")
        acq_last_touch_ts := when } }

/-- The `event_properties` bag, built identically in both variants. -/
structure EventProps where
  install_type : EvKind
  branch_channel : JsVal
  branch_campaign : JsVal
  branch_partner : JsVal
  branch_adset : JsVal
  branch_creative : JsVal
  branch_feature : JsVal
  branch_link_id : JsVal
  web_to_app : Bool

/-- Build `event_properties` from the last-touch data and the kind. -/
def eventPropsOf (latd : JsVal) (ty : EvKind) : EventProps :=
  { install_type := ty
    branch_channel := jsNC (jsGet latd "channel")
    branch_campaign := jsNC (jsGet latd "campaign")
    branch_partner := jsNC (jsGet latd "ad_partner")
    branch_adset := jsNC (jsGet latd "ad_set")
    branch_creative := jsNC (jsGet latd "creative")
    branch_feature := jsNC (jsGet latd "feature")
    branch_link_id := jsNC (jsGet latd "link_id")
    web_to_app := jsTruthy (jsGet latd "web_to_app") }

/-- A device-metadata guard of the combined-call variant: the key test plus
`typeof u.f === "string"` keeps exactly string values and omits the rest. -/
def metaStr (v : JsVal) : Option String :=
  match v with
  | .str s => some s
  | _ => none

/-- A device-metadata guard of the two-call variant: `u.f || undefined`
keeps exactly truthy values and omits the rest. -/
def metaTruthy (v : JsVal) : Option JsVal :=
  if jsTruthy v then some v else none

/-- The attribution event record of the combined-call variant (lines
146-168); omitted optional fields are `none`. -/
structure BranchEvent where
  device_id : String
  event_type : String
  time : Int
  insert_id : String
  event_properties : EventProps
  app_version : Option String
  platform : String
  os_name : Option String
  os_version : Option String
  device_model : Option String

/-- Build the combined-call attribution event (lines 146-168). -/
def branchEventOf (env : JsEnv) (p : JsObj) : BranchEvent :=
  let latd := latdVal p
  let when := toMillis env (whenArg p)
  let tl := normalizeEventType p
  let u := userVal p
  { device_id := pickDeviceId env.now p
    event_type := tl.2
    time := when
    insert_id := buildInsertId p when tl.2
    event_properties := eventPropsOf latd tl.1
    app_version := metaStr (jsGet u "app_version")
    platform :=
      if strIncludes (strLower ((metaStr (jsGet u "os")).getD "")) "android" then "Android" else "iOS"
    os_name := metaStr (jsGet u "os")
    os_version := metaStr (jsGet u "os_version")
    device_model := metaStr (jsGet u "device_model") }

/-- The attribution event record of the two-call variant (lines 331-356):
the metadata fields keep whatever truthy value the source held. -/
structure BranchEvent2 where
  device_id : String
  event_type : String
  time : Int
  insert_id : String
  event_properties : EventProps
  app_version : Option JsVal
  platform : String
  os_name : Option JsVal
  os_version : Option JsVal
  device_model : Option JsVal

/-- Build the two-call attribution event (lines 331-356).  `(u.os || "")`
is read as a string; a non-string `os` would throw in the source and is
outside the model. -/
def branchEventOf2 (env : JsEnv) (p : JsObj) : BranchEvent2 :=
  let latd := latdVal p
  let when := toMillis env (whenArg p)
  let tl := normalizeEventType p
  let u := userVal p
  { device_id := (pickDeviceId2 p).getD ""
    event_type := tl.2
    time := when
    insert_id := buildInsertId p when tl.2
    event_properties := eventPropsOf latd tl.1
    app_version := metaTruthy (jsGet u "app_version")
    platform :=
      if strIncludes (match jsOr (jsGet u "os") (.str "") with | .str s => s | _ => "").toLower
          "android" then "Android" else "iOS"
    os_name := metaTruthy (jsGet u "os")
    os_version := metaTruthy (jsGet u "os_version")
    device_model := metaTruthy (jsGet u "device_model") }

/-!
The handler outcomes.  Method routing, the auth-token gate and JSON body
parsing are the surrounding plumbing; the embedding starts at
`const payload = req.body || body-empty` with the body already an object.
The outbound fetch results are inputs supplied by the delivery collaborator.
-/

/-- An outbound delivery response: HTTP status and response text. -/
structure FetchResp where
  status : Int
  body : String

/-- `Response.ok`: status in the 2xx range. -/
def respOk (r : FetchResp) : Bool := 200 ≤ r.status && r.status < 300

/-- The observable outcome of one invocation. -/
inductive HandlerResult where
  /-- HTTP 202 with `skipped: true` and the given reason. -/
  | skipped (reason : String)
  /-- HTTP 500 with the given error tag and the downstream status and body;
  the upstream webhook sender retries on it. -/
  | failed (error : String) (status : Int) (body : String)
  /-- HTTP 200 with `ok: true`. -/
  | ok
deriving DecidableEq

/-- The combined-call handler (lines 89-193) from the body-parse line down,
with the single delivery response supplied as `evtRes`. -/
def handlerCombined (env : JsEnv) (evtRes : FetchResp) (payload : JsObj) : HandlerResult :=
  let p := mergeData payload
  let deviceId := pickDeviceId env.now p
  if deviceId = "" then .skipped "no_device_id"
  else if respOk evtRes then .ok
  else .failed "event_failed" evtRes.status evtRes.body

/-- The two-call handler (lines 270-374), with the identify and event
delivery responses supplied in order. -/
def handlerTwoCall (env : JsEnv) (identRes evtRes : FetchResp) (payload : JsObj) :
    HandlerResult :=
  let p := mergeData payload
  match pickDeviceId2 p with
  | none => .skipped "no_device_id"
  | some d =>
    if d = "" then .skipped "no_device_id"
    else if respOk identRes then
      if respOk evtRes then .ok
      else .failed "event_failed" evtRes.status evtRes.body
    else .failed "identify_failed" identRes.status identRes.body

/-- The normalized timestamp of an invocation, as the handler computes it
(after the data merge). -/
def pipelineWhen (env : JsEnv) (payload : JsObj) : Int :=
  toMillis env (whenArg (mergeData payload))

/-- The idempotency key of an invocation, as the handler computes it. -/
def pipelineInsertId (env : JsEnv) (payload : JsObj) : String :=
  let p := mergeData payload
  buildInsertId p (pipelineWhen env payload) (normalizeEventType p).2

/-!
Helper lemmas.
-/

/-- `List.getD` yields the default or a member of the list. -/
theorem getD_default_or_mem {α : Type} (l : List α) (n : Nat) (d : α) :
    l.getD n d = d ∨ l.getD n d ∈ l := by
  induction l generalizing n with
  | nil => left; rfl
  | cons a t ih =>
    cases n with
    | zero => right; simp [List.getD]
    | succ m =>
      rw [List.getD_cons_succ]
      rcases ih m with h | h
      · left; exact h
      · right; exact List.mem_cons_of_mem a h

/-- Every hex digit character is in the hex alphabet. -/
theorem hexDigit_mem (n : Nat) : hexDigit n ∈ hexDigitChars := by
  rcases getD_default_or_mem hexDigitChars n '0' with h | h
  · rw [hexDigit, h]; decide
  · exact h

/-- A word prints as eight characters. -/
theorem hexOfWord_length (w : Nat) : (hexOfWord w).length = 8 := rfl

/-- Every character of a printed word is a hex digit. -/
theorem hexOfWord_mem (w : Nat) {c : Char} (h : c ∈ hexOfWord w) : c ∈ hexDigitChars := by
  simp only [hexOfWord, List.mem_cons, List.not_mem_nil, or_false] at h
  rcases h with h | h | h | h | h | h | h | h <;> (subst h; apply hexDigit_mem)

/-- Compression always yields an eight-word state. -/
theorem compressBlock_length (h b : List Nat) : (compressBlock h b).length = 8 := rfl

/-- Folding compression over any block list keeps eight words. -/
theorem foldl_compress_length (bs : List (List Nat)) (h : List Nat) (hh : h.length = 8) :
    (bs.foldl compressBlock h).length = 8 := by
  induction bs generalizing h with
  | nil => exact hh
  | cons b t ih => exact ih (compressBlock h b) (compressBlock_length h b)

/-- A SHA-256 digest is eight words. -/
theorem sha256Words_length (msg : List Nat) : (sha256Words msg).length = 8 :=
  foldl_compress_length _ _ rfl

/-- Flat-mapping the word printer multiplies the length by eight. -/
theorem flatMap_hexOfWord_length (l : List Nat) : (l.flatMap hexOfWord).length = 8 * l.length := by
  induction l with
  | nil => rfl
  | cons w t ih =>
    simp only [List.flatMap_cons, List.length_append, hexOfWord_length, ih, List.length_cons]
    ring

/-- A hex digest has 64 characters. -/
theorem sha256HexChars_length (msg : List Nat) : (sha256HexChars msg).length = 64 := by
  rw [sha256HexChars, flatMap_hexOfWord_length, sha256Words_length]

/-- Every character of a hex digest is a hex digit. -/
theorem sha256HexChars_mem (msg : List Nat) {c : Char} (h : c ∈ sha256HexChars msg) :
    c ∈ hexDigitChars := by
  rw [sha256HexChars, List.mem_flatMap] at h
  rcases h with ⟨w, _, hc⟩
  exact hexOfWord_mem w hc

/-- The id scan never returns the empty string: a hit is a non-blank trim
and the fallback has the nonempty literal prefix. -/
theorem scanIdFields_ne_empty (now : Int) (l : JsObj) : scanIdFields now l ≠ "" := by
  induction l with
  | nil =>
    intro h
    rw [scanIdFields] at h
    have hlen := congrArg String.length h
    rw [String.length_append] at hlen
    have h9 : ("fallback-" : String).length = 9 := rfl
    have h0 : ("" : String).length = 0 := rfl
    rw [h9, h0] at hlen
    omega
  | cons kv rest ih =>
    obtain ⟨k, v⟩ := kv
    by_cases hrec : strLower k ∈ recognizedIdKeys
    · cases v with
      | str s =>
        by_cases ht : strTrim s = ""
        · simpa [scanIdFields, hrec, ht] using ih
        · simp [scanIdFields, hrec, ht]
      | undefined => simpa [scanIdFields, hrec] using ih
      | null => simpa [scanIdFields, hrec] using ih
      | bool b => simpa [scanIdFields, hrec] using ih
      | num n => simpa [scanIdFields, hrec] using ih
      | arr xs => simpa [scanIdFields, hrec] using ih
      | obj fs => simpa [scanIdFields, hrec] using ih
    · simpa [scanIdFields, hrec] using ih

/-- The combined-call device id is never empty. -/
theorem pickDeviceId_ne_empty (now : Int) (p : JsObj) : pickDeviceId now p ≠ "" :=
  scanIdFields_ne_empty now _

/-- Last-match lookup over an append prefers the right-hand list. -/
theorem lookupLast_append (k : String) (a b : JsObj) :
    lookupLast k (a ++ b) =
      match lookupLast k b with
      | some w => some w
      | none => lookupLast k a := by
  induction a with
  | nil =>
    cases h : lookupLast k b <;> simp [lookupLast, h]
  | cons kv t ih =>
    obtain ⟨k', v⟩ := kv
    rw [List.cons_append, lookupLast, ih, lookupLast]
    cases lookupLast k b <;> cases lookupLast k t <;> rfl

/-!
Claim theorems.
-/

/-- Claim C1 (code bug): on a payload with no identity fields at all, the
combined-call `pickDeviceId` does NOT signal absence - it returns the
placeholder `"fallback-" + Date.now()` - and since that placeholder is
truthy, the handler never takes its skipped-no-device-id branch and an
outbound record is constructed and sent.  This contradicts the comments in
the source itself (the fallback makes the skip branch, annotated "No stable
device id; skip", unreachable) and the spec; the two-call variant of
`pickDeviceId` returns undefined as specified. -/
theorem fallbackPlaceholder_never_skips :
    ∀ (env : JsEnv) (r : FetchResp) (reason : String),
      pickDeviceId env.now (mergeData []) = "fallback-" ++ toString env.now ∧
      handlerCombined env r [] ≠ .skipped reason := by
  intro env r reason
  refine ⟨rfl, ?_⟩
  simp only [handlerCombined]
  rw [if_neg (pickDeviceId_ne_empty env.now (mergeData []))]
  split <;> simp

/-- Claim C4: event-type normalization uppercases the raw event string and
tests containment in the fixed order REINSTALL, INSTALL, OPEN, with the
stated kind/label pairs, falling back to the uppercased raw string or the
generic label; any name containing both REINSTALL and INSTALL normalizes to
reinstall. -/
theorem normalizeEventType_priority :
    (∀ p : JsObj, strIncludes (strUpper (rawEventName p)) "REINSTALL" = true →
      normalizeEventType p = (.reinstall, "Branch Reinstall")) ∧
    (∀ p : JsObj, strIncludes (strUpper (rawEventName p)) "REINSTALL" = false →
      strIncludes (strUpper (rawEventName p)) "INSTALL" = true →
      normalizeEventType p = (.install, "Branch Attributed Install")) ∧
    (∀ p : JsObj, strIncludes (strUpper (rawEventName p)) "REINSTALL" = false →
      strIncludes (strUpper (rawEventName p)) "INSTALL" = false →
      strIncludes (strUpper (rawEventName p)) "OPEN" = true →
      normalizeEventType p = (.opened, "Branch Open")) ∧
    (∀ p : JsObj, strIncludes (strUpper (rawEventName p)) "REINSTALL" = false →
      strIncludes (strUpper (rawEventName p)) "INSTALL" = false →
      strIncludes (strUpper (rawEventName p)) "OPEN" = false →
      normalizeEventType p =
        (.other, if strUpper (rawEventName p) = "" then "Branch Event"
                 else strUpper (rawEventName p))) ∧
    (∀ p : JsObj, strIncludes (strUpper (rawEventName p)) "REINSTALL" = true →
      strIncludes (strUpper (rawEventName p)) "INSTALL" = true →
      (normalizeEventType p).1 = .reinstall) := by
  refine ⟨?_, ?_, ?_, ?_, ?_⟩
  · intro p h; simp [normalizeEventType, h]
  · intro p h1 h2; simp [normalizeEventType, h1, h2]
  · intro p h1 h2 h3; simp [normalizeEventType, h1, h2, h3]
  · intro p h1 h2 h3; simp [normalizeEventType, h1, h2, h3]
  · intro p h1 _; simp [normalizeEventType, h1]

/-- Witness for C4: the name "reinstall_and_install" contains both REINSTALL
and INSTALL after uppercasing and normalizes to reinstall, not install. -/
theorem normalizeEventType_priority_witness :
    normalizeEventType [("name", JsVal.str "reinstall_and_install")] =
      (.reinstall, "Branch Reinstall") :=
  normalizeEventType_priority.1 [("name", JsVal.str "reinstall_and_install")] (by rfl)

/-- Claim C5: timestamp coercion is a total function; numeric inputs at most
1e12 are scaled to milliseconds, larger ones kept; numeric strings follow
the same rule; non-numeric strings fall back to date parsing and, when that
fails, to the current time; absent inputs give the current time; and both
1700000000 and 1700000000000 coerce to 1700000000000.  (A date string
parsing to exactly the zero epoch also falls back to the current time; the
claim does not speak about that case.) -/
theorem toMillis_spec_conformance :
    (∀ (env : JsEnv) (n : Int),
      toMillis env (.num n) = if n ≤ 1000000000000 then n * 1000 else n) ∧
    (∀ env : JsEnv, toMillis env .undefined = env.now ∧ toMillis env .null = env.now) ∧
    (∀ (env : JsEnv) (s : String) (n : Int), env.parseNumber s = some n →
      toMillis env (.str s) = if n ≤ 1000000000000 then n * 1000 else n) ∧
    (∀ (env : JsEnv) (s : String) (t : Int), env.parseNumber s = none →
      env.parseDate s = some t → t ≠ 0 → toMillis env (.str s) = t) ∧
    (∀ (env : JsEnv) (s : String), env.parseNumber s = none →
      env.parseDate s = none → toMillis env (.str s) = env.now) ∧
    (∀ env : JsEnv,
      toMillis env (.num 1700000000) = 1700000000000 ∧
      toMillis env (.num 1700000000000) = 1700000000000) := by
  refine ⟨?_, ?_, ?_, ?_, ?_, ?_⟩
  · intro env n
    simp only [toMillis]
    split <;> split <;> first | rfl | omega
  · intro env; exact ⟨rfl, rfl⟩
  · intro env s n h
    simp only [toMillis, h]
    split <;> split <;> first | rfl | omega
  · intro env s t h1 h2 h3; simp [toMillis, h1, h2, h3]
  · intro env s h1 h2; simp [toMillis, h1, h2]
  · intro env; exact ⟨rfl, rfl⟩

/-- Witness for C5: a concrete environment whose number parser reads "42"
coerces the string "42" to 42000 milliseconds. -/
theorem toMillis_spec_conformance_witness :
    toMillis ⟨99, (fun s => if s = "42" then some 42 else none), fun _ => none⟩
      (.str "42") = 42000 := by
  have h := toMillis_spec_conformance.2.2.1
    ⟨99, (fun s => if s = "42" then some (42 : Int) else none), fun _ => none⟩ "42" 42 rfl
  norm_num at h
  exact h

/-- Claim C7: in the identity record, the first-touch group carries the
install timestamp exactly when the normalized kind is install, the
last-touch group always carries the normalized timestamp, and the five
attribution fields agree between the two groups. -/
theorem identification_groups :
    ∀ (env : JsEnv) (p : JsObj),
      (identificationOf env p).setOnce.acq_install_ts =
        (if (normalizeEventType p).1 = EvKind.install
         then some (toMillis env (whenArg p)) else none) ∧
      (identificationOf env p).setAlways.acq_last_touch_ts = toMillis env (whenArg p) ∧
      (identificationOf env p).setOnce.acq_channel_first =
        (identificationOf env p).setAlways.acq_channel_last ∧
      (identificationOf env p).setOnce.acq_campaign_first =
        (identificationOf env p).setAlways.acq_campaign_last ∧
      (identificationOf env p).setOnce.acq_partner_first =
        (identificationOf env p).setAlways.acq_partner_last ∧
      (identificationOf env p).setOnce.acq_adset_first =
        (identificationOf env p).setAlways.acq_adset_last ∧
      (identificationOf env p).setOnce.acq_creative_first =
        (identificationOf env p).setAlways.acq_creative_last :=
  fun _ _ => ⟨rfl, rfl, rfl, rfl, rfl, rfl, rfl⟩

/-- Claim C9: a non-2xx downstream response is surfaced as the retryable
failure outcome carrying that response's status and body, in both variants
(for the two-call variant, for whichever of the two sequential deliveries
fails first). -/
theorem deliveryFailure_surfaced :
    (∀ (env : JsEnv) (r : FetchResp) (p : JsObj), respOk r = false →
      handlerCombined env r p = .failed "event_failed" r.status r.body) ∧
    (∀ (env : JsEnv) (r1 r2 : FetchResp) (p : JsObj) (d : String),
      pickDeviceId2 (mergeData p) = some d → d ≠ "" →
      (respOk r1 = false →
        handlerTwoCall env r1 r2 p = .failed "identify_failed" r1.status r1.body) ∧
      (respOk r1 = true → respOk r2 = false →
        handlerTwoCall env r1 r2 p = .failed "event_failed" r2.status r2.body)) := by
  constructor
  · intro env r p h
    simp only [handlerCombined]
    rw [if_neg (pickDeviceId_ne_empty env.now (mergeData p))]
    rw [h]
    simp
  · intro env r1 r2 p d hd hne
    constructor
    · intro h1
      simp [handlerTwoCall, hd, hne, h1]
    · intro h1 h2
      simp [handlerTwoCall, hd, hne, h1, h2]

/-- Witness for C9: a 500 downstream response with body "oops" is reported
as the event-failed outcome with that status and body, in both variants. -/
theorem deliveryFailure_surfaced_witness :
    handlerCombined ⟨0, fun _ => none, fun _ => none⟩ ⟨500, "oops"⟩ [] =
      .failed "event_failed" 500 "oops" ∧
    handlerTwoCall ⟨0, fun _ => none, fun _ => none⟩ ⟨204, ""⟩ ⟨502, "bad"⟩
      [("user_data", JsVal.obj [("idfa", JsVal.str "D")])] =
      .failed "event_failed" 502 "bad" :=
  ⟨deliveryFailure_surfaced.1 ⟨0, fun _ => none, fun _ => none⟩ ⟨500, "oops"⟩ [] (by rfl),
   (deliveryFailure_surfaced.2 ⟨0, fun _ => none, fun _ => none⟩ ⟨204, ""⟩ ⟨502, "bad"⟩
     [("user_data", JsVal.obj [("idfa", JsVal.str "D")])] "D" (by rfl) (by decide)).2
     (by rfl) (by rfl)⟩

/-- The device-id selection policy as claim C3 states it: scan the identity
entries in encounter order and return the first whose key is a letter-case
spelling of a recognized identifier and whose value is a string with a
non-blank trim, as that trimmed value; absence otherwise. -/
def scanSpec : JsObj → Option String
  | [] => none
  | (k, v) :: rest =>
    match v with
    | .str s =>
      if strLower k ∈ recognizedIdKeys ∧ strTrim s ≠ "" then some (strTrim s) else scanSpec rest
    | _ => scanSpec rest

/-- The combined-call scan agrees with the claimed policy, with the
placeholder as its absence value. -/
theorem scanIdFields_eq_scanSpec (now : Int) (l : JsObj) :
    scanIdFields now l = (scanSpec l).getD ("fallback-" ++ toString now) := by
  induction l with
  | nil => rfl
  | cons kv rest ih =>
    obtain ⟨k, v⟩ := kv
    by_cases hrec : strLower k ∈ recognizedIdKeys
    · cases v with
      | str s =>
        by_cases ht : strTrim s = ""
        · simp [scanIdFields, scanSpec, hrec, ht, ih]
        · simp [scanIdFields, scanSpec, hrec, ht]
      | undefined => simp [scanIdFields, scanSpec, hrec, ih]
      | null => simp [scanIdFields, scanSpec, hrec, ih]
      | bool b => simp [scanIdFields, scanSpec, hrec, ih]
      | num n => simp [scanIdFields, scanSpec, hrec, ih]
      | arr xs => simp [scanIdFields, scanSpec, hrec, ih]
      | obj fs => simp [scanIdFields, scanSpec, hrec, ih]
    · cases v with
      | str s => simp [scanIdFields, scanSpec, hrec, ih]
      | undefined => simp [scanIdFields, scanSpec, hrec, ih]
      | null => simp [scanIdFields, scanSpec, hrec, ih]
      | bool b => simp [scanIdFields, scanSpec, hrec, ih]
      | num n => simp [scanIdFields, scanSpec, hrec, ih]
      | arr xs => simp [scanIdFields, scanSpec, hrec, ih]
      | obj fs => simp [scanIdFields, scanSpec, hrec, ih]

/-- Counterexample for C3 as stated: `gaid` is a recognized identity field
and the claimed policy selects its value, but the two-call variant of
device-id extraction (one of the two extractors the claim covers) only
checks the exact keys idfa, idfv and adid and signals absence on this
payload instead of returning "g-123". -/
theorem pickDeviceId2_misses_gaid :
    scanSpec [("gaid", JsVal.str "g-123")] = some "g-123" ∧
    pickDeviceId2 [("user_data", JsVal.obj [("gaid", JsVal.str "g-123")])] = none := by
  decide

/-- A hit of the two-call candidate test is the trim of a string value. -/
theorem trimTruthy_some {v : JsVal} {d : String} (h : trimTruthy v = some d) :
    ∃ s, v = JsVal.str s ∧ strTrim s = d := by
  cases v with
  | str s =>
    refine ⟨s, rfl, ?_⟩
    simp only [trimTruthy] at h
    split at h
    · simp at h
    · split at h
      · simp at h
      · exact Option.some.inj h
  | undefined => simp [trimTruthy] at h
  | null => simp [trimTruthy] at h
  | bool b => simp [trimTruthy] at h
  | num n => simp [trimTruthy] at h
  | arr xs => simp [trimTruthy] at h
  | obj fs => simp [trimTruthy] at h

/-- Claim C3 as amended: the combined-call extractor implements exactly the
claimed case-insensitive encounter-order scan (with the placeholder, not
absence, when nothing matches - see C1), and a value it finds is a
non-empty trim; the two-call extractor instead returns values only from the
exact lowercase keys idfa, idfv, adid. -/
theorem pickDeviceId_scan_policy :
    (∀ (now : Int) (p : JsObj),
      pickDeviceId now p =
        (scanSpec (fieldsOf (userVal p))).getD ("fallback-" ++ toString now)) ∧
    (∀ (l : JsObj) (v : String), scanSpec l = some v → v ≠ "") ∧
    (∀ (p : JsObj) (d : String), pickDeviceId2 p = some d →
      ∃ k, k ∈ (["idfa", "idfv", "adid"] : List String) ∧
        ∃ s, jsGet (userVal p) k = JsVal.str s ∧ strTrim s = d) := by
  refine ⟨?_, ?_, ?_⟩
  · intro now p
    exact scanIdFields_eq_scanSpec now _
  · intro l v h
    induction l with
    | nil => simp [scanSpec] at h
    | cons kv rest ih =>
      obtain ⟨k, w⟩ := kv
      cases w with
      | str s =>
        by_cases hc : strLower k ∈ recognizedIdKeys ∧ strTrim s ≠ ""
        · rw [scanSpec, if_pos hc] at h
          rw [← Option.some.inj h]
          exact hc.2
        · rw [scanSpec, if_neg hc] at h
          exact ih h
      | undefined => exact ih h
      | null => exact ih h
      | bool b => exact ih h
      | num n => exact ih h
      | arr xs => exact ih h
      | obj fs => exact ih h
  · intro p d h
    unfold pickDeviceId2 at h
    cases h1 : trimTruthy (jsGet (userVal p) "idfa") with
    | some d1 =>
      rw [h1] at h
      obtain ⟨s, hs, hts⟩ := trimTruthy_some h1
      exact ⟨"idfa", by simp, s, hs, by rw [hts]; exact Option.some.inj h⟩
    | none =>
      rw [h1] at h
      cases h2 : trimTruthy (jsGet (userVal p) "idfv") with
      | some d2 =>
        rw [h2] at h
        obtain ⟨s, hs, hts⟩ := trimTruthy_some h2
        exact ⟨"idfv", by simp, s, hs, by rw [hts]; exact Option.some.inj h⟩
      | none =>
        rw [h2] at h
        obtain ⟨s, hs, hts⟩ := trimTruthy_some h
        exact ⟨"adid", by simp, s, hs, hts⟩

/-- Witness for the amended C3: a populated idfv field is found by the
two-call extractor as the trim of its string value. -/
theorem pickDeviceId_scan_policy_witness :
    ∃ k, k ∈ (["idfa", "idfv", "adid"] : List String) ∧
      ∃ s, jsGet (userVal [("user_data", JsVal.obj [("idfv", JsVal.str " v-1 ")])]) k =
          JsVal.str s ∧ strTrim s = "v-1" :=
  pickDeviceId_scan_policy.2.2 [("user_data", JsVal.obj [("idfv", JsVal.str " v-1 ")])]
    "v-1" (by decide)

/-- Claim C2: the idempotency key depends only on the six seed inputs (event
id, event name, alternate event name, normalized timestamp, normalized
label, attribution link id) - two payloads agreeing on those fields give the
same key - and every key is a 64-character string over the hexadecimal
alphabet. -/
theorem buildInsertId_deterministic_hex64 :
    (∀ (p q : JsObj) (when : Int) (label : String),
      getField p "id" = getField q "id" →
      getField p "name" = getField q "name" →
      getField p "event" = getField q "event" →
      jsOptChain (getField p "last_attributed_touch_data") "link_id" =
        jsOptChain (getField q "last_attributed_touch_data") "link_id" →
      buildInsertId p when label = buildInsertId q when label) ∧
    (∀ (p : JsObj) (when : Int) (label : String),
      (buildInsertId p when label).length = 64 ∧
      ∀ c ∈ (buildInsertId p when label).data, c ∈ hexDigitChars) := by
  constructor
  · intro p q when label h1 h2 h3 h4
    simp only [buildInsertId, h1, h2, h3, h4]
  · intro p when label
    constructor
    · show (List.take 64 (sha256HexChars _)).length = 64
      rw [List.length_take, sha256HexChars_length]
      exact Nat.min_self 64
    · intro c hc
      exact sha256HexChars_mem _ (List.mem_of_mem_take hc)

/-- Witness for C2: two payloads that differ in an extra field but agree on
the six seed inputs produce identical keys, of length 64. -/
theorem buildInsertId_deterministic_hex64_witness :
    buildInsertId [("id", JsVal.str "E"), ("x", JsVal.num 1)] 5 "L" =
      buildInsertId [("x", JsVal.num 2), ("id", JsVal.str "E")] 5 "L" ∧
    (buildInsertId [("id", JsVal.str "E"), ("x", JsVal.num 1)] 5 "L").length = 64 :=
  ⟨buildInsertId_deterministic_hex64.1 [("id", JsVal.str "E"), ("x", JsVal.num 1)]
      [("x", JsVal.num 2), ("id", JsVal.str "E")] 5 "L" (by rfl) (by rfl) (by rfl) (by rfl),
   (buildInsertId_deterministic_hex64.2 [("id", JsVal.str "E"), ("x", JsVal.num 1)] 5 "L").1⟩

/-- Claim C6: when the `data` key holds a structured mapping (a JS object -
arrays, whose typeof is also "object", merge their index keys the same way),
extraction sees the merged object, inner keys winning on conflict and outer
keys visible otherwise; a `null` data value leaves the payload unchanged
(spreading null adds nothing), and a payload whose `data` is not
typeof-object is processed unchanged. -/
theorem mergeData_flattens :
    ∀ p : JsObj,
      (jsTypeofObject (getField p "data") = true →
        ∀ k, getField (mergeData p) k =
          (lookupLast k (fieldsOf (getField p "data"))).getD (getField p k)) ∧
      (getField p "data" = JsVal.null → mergeData p = p) ∧
      (jsTypeofObject (getField p "data") = false → mergeData p = p) := by
  intro p
  refine ⟨?_, ?_, ?_⟩
  · intro h k
    rw [mergeData, if_pos h, getField, lookupLast_append]
    cases lookupLast k (fieldsOf (getField p "data")) <;> simp [getField]
  · intro h
    rw [mergeData, h]
    simp [jsTypeofObject, fieldsOf]
  · intro h
    rw [mergeData, if_neg (by simp [h])]

/-- Witness for C6: a name wrapped under `data` overrides the outer name. -/
theorem mergeData_flattens_witness :
    getField (mergeData [("name", JsVal.str "OPEN"),
      ("data", JsVal.obj [("name", JsVal.str "REINSTALL")])]) "name" =
      JsVal.str "REINSTALL" := by
  have h := (mergeData_flattens [("name", JsVal.str "OPEN"),
    ("data", JsVal.obj [("name", JsVal.str "REINSTALL")])]).1 (by rfl) "name"
  rw [h]
  rfl

/-- The combined-call metadata guard keeps exactly string-typed values. -/
theorem metaStr_eq_some_iff (v : JsVal) (s : String) : metaStr v = some s ↔ v = .str s := by
  cases v <;> simp [metaStr]

/-- The two-call metadata guard keeps exactly truthy values. -/
theorem metaTruthy_eq_some_iff (v w : JsVal) :
    metaTruthy v = some w ↔ (v = w ∧ jsTruthy w = true) := by
  unfold metaTruthy
  split <;> constructor
  · intro hw
    rw [← Option.some.inj hw] at *
    exact ⟨rfl, by assumption⟩
  · intro hw
    rw [hw.1]
  · intro hw
    simp at hw
  · intro hw
    rw [← hw.1] at hw
    simp_all

/-- Counterexample for C8 as stated: in the two-call composer, an
`app_version` that is present and string-typed but empty is omitted from
the outbound event rather than included. -/
theorem eventBody2_meta_omits_empty_string :
    jsGet (userVal [("user_data", JsVal.obj [("app_version", JsVal.str "")])]) "app_version" =
      JsVal.str "" ∧
    (branchEventOf2 ⟨0, fun _ => none, fun _ => none⟩
      [("user_data", JsVal.obj [("app_version", JsVal.str "")])]).app_version = none :=
  ⟨rfl, rfl⟩

/-- Claim C8 as amended: both composers send the seven attribution fields
as explicit null when absent; the combined-call composer includes each
device-metadata field exactly when it is present and string-typed, while
the two-call composer includes it exactly when it is truthy (so it omits a
present empty string and keeps any truthy value). -/
theorem metadata_inclusion_policy :
    ∀ (env : JsEnv) (p : JsObj),
      ((jsGet (latdVal p) "channel" = JsVal.undefined →
          (branchEventOf env p).event_properties.branch_channel = JsVal.null) ∧
        (jsGet (latdVal p) "campaign" = JsVal.undefined →
          (branchEventOf env p).event_properties.branch_campaign = JsVal.null) ∧
        (jsGet (latdVal p) "ad_partner" = JsVal.undefined →
          (branchEventOf env p).event_properties.branch_partner = JsVal.null) ∧
        (jsGet (latdVal p) "ad_set" = JsVal.undefined →
          (branchEventOf env p).event_properties.branch_adset = JsVal.null) ∧
        (jsGet (latdVal p) "creative" = JsVal.undefined →
          (branchEventOf env p).event_properties.branch_creative = JsVal.null) ∧
        (jsGet (latdVal p) "feature" = JsVal.undefined →
          (branchEventOf env p).event_properties.branch_feature = JsVal.null) ∧
        (jsGet (latdVal p) "link_id" = JsVal.undefined →
          (branchEventOf env p).event_properties.branch_link_id = JsVal.null)) ∧
      (branchEventOf2 env p).event_properties = (branchEventOf env p).event_properties ∧
      (∀ s, (branchEventOf env p).app_version = some s ↔
        jsGet (userVal p) "app_version" = JsVal.str s) ∧
      (∀ s, (branchEventOf env p).os_name = some s ↔
        jsGet (userVal p) "os" = JsVal.str s) ∧
      (∀ s, (branchEventOf env p).os_version = some s ↔
        jsGet (userVal p) "os_version" = JsVal.str s) ∧
      (∀ s, (branchEventOf env p).device_model = some s ↔
        jsGet (userVal p) "device_model" = JsVal.str s) ∧
      (∀ v, (branchEventOf2 env p).app_version = some v ↔
        (jsGet (userVal p) "app_version" = v ∧ jsTruthy v = true)) ∧
      (∀ v, (branchEventOf2 env p).os_name = some v ↔
        (jsGet (userVal p) "os" = v ∧ jsTruthy v = true)) ∧
      (∀ v, (branchEventOf2 env p).os_version = some v ↔
        (jsGet (userVal p) "os_version" = v ∧ jsTruthy v = true)) ∧
      (∀ v, (branchEventOf2 env p).device_model = some v ↔
        (jsGet (userVal p) "device_model" = v ∧ jsTruthy v = true)) := by
  intro env p
  refine ⟨⟨?_, ?_, ?_, ?_, ?_, ?_, ?_⟩, rfl, ?_, ?_, ?_, ?_, ?_, ?_, ?_, ?_⟩
  · intro h; show jsNC (jsGet (latdVal p) "channel") = JsVal.null; rw [h]; rfl
  · intro h; show jsNC (jsGet (latdVal p) "campaign") = JsVal.null; rw [h]; rfl
  · intro h; show jsNC (jsGet (latdVal p) "ad_partner") = JsVal.null; rw [h]; rfl
  · intro h; show jsNC (jsGet (latdVal p) "ad_set") = JsVal.null; rw [h]; rfl
  · intro h; show jsNC (jsGet (latdVal p) "creative") = JsVal.null; rw [h]; rfl
  · intro h; show jsNC (jsGet (latdVal p) "feature") = JsVal.null; rw [h]; rfl
  · intro h; show jsNC (jsGet (latdVal p) "link_id") = JsVal.null; rw [h]; rfl
  · exact fun s => metaStr_eq_some_iff (jsGet (userVal p) "app_version") s
  · exact fun s => metaStr_eq_some_iff (jsGet (userVal p) "os") s
  · exact fun s => metaStr_eq_some_iff (jsGet (userVal p) "os_version") s
  · exact fun s => metaStr_eq_some_iff (jsGet (userVal p) "device_model") s
  · exact fun v => metaTruthy_eq_some_iff (jsGet (userVal p) "app_version") v
  · exact fun v => metaTruthy_eq_some_iff (jsGet (userVal p) "os") v
  · exact fun v => metaTruthy_eq_some_iff (jsGet (userVal p) "os_version") v
  · exact fun v => metaTruthy_eq_some_iff (jsGet (userVal p) "device_model") v

/-- Witness for the amended C8: with no attribution data at all, the
composed event carries an explicit null channel. -/
theorem metadata_inclusion_policy_witness :
    (branchEventOf ⟨0, fun _ => none, fun _ => none⟩ []).event_properties.branch_channel =
      JsVal.null :=
  (metadata_inclusion_policy ⟨0, fun _ => none, fun _ => none⟩ []).1.1 (by rfl)

set_option maxRecDepth 10000 in
/-- Claim C10: when neither timestamp field is usable (both absent, or
`timestamp_millis` zero with no other field, or the present string
unparseable), the normalized timestamp is the current wall-clock time and
feeds the idempotency-key hash, so the same payload processed at two
different instants yields two different keys: the key is not a function of
the payload alone. -/
theorem insertId_depends_on_clock :
    (∀ env : JsEnv, pipelineWhen env [] = env.now) ∧
    (∀ env : JsEnv, pipelineWhen env [("timestamp_millis", JsVal.num 0)] = env.now) ∧
    (∀ (env : JsEnv) (s : String), env.parseNumber s = none → env.parseDate s = none →
      pipelineWhen env [("timestamp", JsVal.str s)] = env.now) ∧
    pipelineInsertId ⟨1700000000000, fun _ => none, fun _ => none⟩ [] ≠
      pipelineInsertId ⟨1700000000001, fun _ => none, fun _ => none⟩ [] := by
  refine ⟨fun env => rfl, fun env => rfl, ?_, by decide⟩
  intro env s h1 h2
  show toMillis env (.str s) = env.now
  simp [toMillis, h1, h2]

/-- Witness for C10: an environment that parses nothing coerces an
unparseable timestamp string to its clock value. -/
theorem insertId_depends_on_clock_witness :
    pipelineWhen ⟨7, fun _ => none, fun _ => none⟩ [("timestamp", JsVal.str "zzz")] = 7 :=
  insertId_depends_on_clock.2.2.1 ⟨7, fun _ => none, fun _ => none⟩ "zzz" rfl rfl
